import Mathlib

/-!
Verification of the Dot_Game_Code repository (an Express + PostgreSQL
click-scoring game) against its natural-language specification.

The embedding models the two source files:
* `src/server.js` — registration, game-result recording (the stats
  aggregator), the dashboard and the leaderboard handlers, each a thin
  wrapper over single-row SQL statements against the tables
  `users(id, name, email, password)` and
  `user_stats(user_id, games_played, total_clicks, best_score)`;
* `src/passport-config.js` — the local-strategy credential check
  `authenticateUser`.

The relational store is modelled as in-memory lists of rows; each SQL
statement of the source becomes one list operation (`find?` for a
`SELECT ... WHERE`, append for `INSERT`, a keyed map for `UPDATE`).
The bcrypt primitive is a black box: `bcrypt.hash` is an arbitrary
function parameter `hashF : String → String`, and
`bcrypt.compare p h` is modelled as `h = hashF p` (the idealisation of
a deterministic one-way digest).  Database failures (a rejected
promise from `pool.query`) are modelled by feeding a handler an
`Except StorageError _` query outcome: `.ok` is the resolved result
set, `.error` takes the handler into its `catch` block.
-/

namespace DotGame

/-- Row of the `users` table: `users(id, name, email, password)`.
The `password` column stores the bcrypt digest; the empty string
models a NULL / absent hash (JS falsy `!user.password`). -/
structure User where
  id : Nat
  name : String
  email : String
  password : String
deriving DecidableEq

/-- Row of the `user_stats` table:
`user_stats(user_id, games_played, total_clicks, best_score)`. -/
structure UserStats where
  user_id : Nat
  games_played : Nat
  total_clicks : Nat
  best_score : Nat
deriving DecidableEq

/-- The relational store: the two tables the application touches. -/
structure DB where
  users : List User
  user_stats : List UserStats
deriving DecidableEq

/-- Models `SELECT * FROM user_stats WHERE user_id = $1` followed by
`result.rows[0]` / `result.rows.length === 0`: the first matching row,
if any. -/
def lookupStats (db : DB) (uid : Nat) : Option UserStats :=
  db.user_stats.find? (fun r => r.user_id == uid)

/-- Models `SELECT * FROM users WHERE email = $1` with `result.rows[0]`. -/
def findUserByEmail (users : List User) (email : String) : Option User :=
  users.find? (fun u => u.email == email)

/-- Models `SELECT * FROM users WHERE id = $1` with `result.rows[0]`. -/
def findUserById (db : DB) (uid : Nat) : Option User :=
  db.users.find? (fun u => u.id == uid)

/-- Models the single statement
`UPDATE user_stats SET games_played = $1, total_clicks = $2, best_score = $3 WHERE user_id = $4`:
every row keyed by `uid` gets all three counters replaced at once;
every other row is untouched. -/
def updateStats (rows : List UserStats) (uid g t b : Nat) : List UserStats :=
  rows.map (fun r =>
    if r.user_id == uid then
      { r with games_played := g, total_clicks := t, best_score := b }
    else r)

/-- Read phase of the `POST /game/result` handler: the
`statsCheck` query (`SELECT * FROM user_stats WHERE user_id = $1`). -/
def rmwRead (db : DB) (uid : Nat) : Option UserStats :=
  lookupStats db uid

/-- Write phase of the `POST /game/result` handler, applied to the
result of a previous read: if the read saw no row, run
`INSERT INTO user_stats (user_id, games_played, total_clicks, best_score) VALUES ($1, 1, $2, $3)`;
otherwise compute `newGamesPlayed`, `newTotalClicks`, `newBestScore`
from the row the read returned and run the single `UPDATE`.  The read
and the write are separate awaited queries in the source, with no
transaction around them, so another request's queries may be
interleaved between the two phases. -/
def rmwWrite (db : DB) (uid score : Nat) (statsCheck : Option UserStats) : DB :=
  match statsCheck with
  | none =>
      { db with user_stats := db.user_stats ++ [⟨uid, 1, score, score⟩] }
  | some currentStats =>
      let newGamesPlayed := currentStats.games_played + 1
      let newTotalClicks := currentStats.total_clicks + score
      let newBestScore := max currentStats.best_score score
      { db with
        user_stats := updateStats db.user_stats uid newGamesPlayed newTotalClicks newBestScore }

/-- The `POST /game/result` handler body (success path): the read
phase immediately followed by the write phase, exactly the source's
sequential execution of the two queries. -/
def recordResult (db : DB) (uid score : Nat) : DB :=
  rmwWrite db uid score (rmwRead db uid)

/-- Sequential composition of `recordResult` calls for one user, one
per submitted score. -/
def recordResults (db : DB) (uid : Nat) (scores : List Nat) : DB :=
  scores.foldl (fun d s => recordResult d uid s) db

/-- The four typed reasons `authenticateUser` can refuse a login,
one per `done(null, false, ...)` branch of `src/passport-config.js`. -/
inductive AuthFailure where
  | NoSuchUser
  | MissingPassword
  | CorruptAccount
  | WrongPassword
deriving DecidableEq

instance {ε α : Type} [DecidableEq ε] [DecidableEq α] : DecidableEq (Except ε α) := fun x y =>
  match x, y with
  | .error e, .error f => decidable_of_iff (e = f) (by simp)
  | .error _, .ok _ => Decidable.isFalse (fun h => Except.noConfusion h)
  | .ok _, .error _ => Decidable.isFalse (fun h => Except.noConfusion h)
  | .ok a, .ok b => decidable_of_iff (a = b) (by simp)

/-- Instrumented embedding of `authenticateUser` from
`src/passport-config.js`, parameterised by the bcrypt digest function
`hashF`.  The branches follow the source in order: (1) user lookup by
email, (2) `!password` guard, (3) `!user.password` guard,
(4) `bcrypt.compare(password, user.password)`, modelled as
`user.password = hashF password`.  The second component records
whether step (4) — the hash-verify primitive — was invoked on this
run. -/
def authenticateUserT (hashF : String → String) (users : List User)
    (email password : String) : Except AuthFailure User × Bool :=
  match findUserByEmail users email with
  | none => (.error .NoSuchUser, false)
  | some user =>
      if password = "" then (.error .MissingPassword, false)
      else if user.password = "" then (.error .CorruptAccount, false)
      else if user.password = hashF password then (.ok user, true)
      else (.error .WrongPassword, true)

/-- The result of `authenticateUser`: its instrumented version with
the bookkeeping component dropped. -/
def authenticateUser (hashF : String → String) (users : List User)
    (email password : String) : Except AuthFailure User :=
  (authenticateUserT hashF users email password).1

/-- One row of the leaderboard result set:
`SELECT u.name, us.best_score ...` mapped by the handler to
`{ name, bestScore }`. -/
structure LeaderRow where
  name : String
  bestScore : Nat
deriving DecidableEq

/-- The comparison behind `ORDER BY us.best_score DESC`: row `a` may
come before row `b` when its score is at least `b`'s. -/
def rowGE (a b : LeaderRow) : Prop :=
  b.bestScore ≤ a.bestScore

instance : DecidableRel rowGE :=
  fun a b => Nat.decLe b.bestScore a.bestScore

instance : IsTotal LeaderRow rowGE :=
  ⟨fun a b => Nat.le_total b.bestScore a.bestScore⟩

instance : IsTrans LeaderRow rowGE :=
  ⟨fun _ _ _ hab hbc => Nat.le_trans hbc hab⟩

/-- Models the join
`FROM users u JOIN user_stats us ON u.id = us.user_id`: every stats
row paired with its owning user's name; a stats row whose foreign key
matches no user (impossible under the FK constraint) joins to
nothing. -/
def joinRows (db : DB) : List LeaderRow :=
  db.user_stats.filterMap (fun st =>
    (findUserById db st.user_id).map (fun u => ⟨u.name, st.best_score⟩))

/-- Models `ORDER BY us.best_score DESC`: a stable sort by descending
best score (ties stay in table order, the storage engine's
arbitrary-but-stable choice). -/
def sortRows (l : List LeaderRow) : List LeaderRow :=
  l.insertionSort rowGE

/-- The leaderboard query with its `LIMIT` generalised to a parameter:
join, order by best score descending, truncate to the first `n` rows.
The `GET /leaderboard` handler is `topScores db 3` (`LIMIT 3`). -/
def topScores (db : DB) (n : Nat) : List LeaderRow :=
  (sortRows (joinRows db)).take n

/-- The success path of the `POST /register` handler:
`bcrypt.hash(req.body.password, 10)` followed by
`INSERT INTO users (name, email, password) VALUES ($1, $2, $3) RETURNING *`.
`newId` is the serial id the store assigns to the new row; the second
component is the returned row. -/
def register (hashF : String → String) (db : DB)
    (nm email pw : String) (newId : Nat) : DB × User :=
  let hashedPassword := hashF pw
  let newUser : User := ⟨newId, nm, email, hashedPassword⟩
  ({ db with users := db.users ++ [newUser] }, newUser)

/-- The `averageClicks` value the dashboard renders: a plain number
`0` from the guard's else-branch, or the formatted quotient
`(stats.total_clicks / stats.games_played).toFixed(2)`, carried as
its value in hundredths. -/
inductive AvgClicks where
  | num (n : Nat)
  | fixed2 (hundredths : Nat)
deriving DecidableEq

/-- Ways `pool.query` can reject, per the spec's storage-error
taxonomy. -/
inductive StorageError where
  | ConnectionLost
  | ConstraintViolation
  | Timeout
deriving DecidableEq

/-- The observable response a handler sends, one constructor per
`res.*` call the four modelled handlers can reach. -/
inductive Response where
  | okStatus (code : Nat)
  | errorStatus (code : Nat)
  | renderDashboard (name : String) (gamesPlayed bestScore : Nat) (averageClicks : AvgClicks)
  | renderLeaderboard (topUsers : List LeaderRow)
  | renderRegisterFailed (messages : List String) (name email : String)
  | redirect (path : String)
deriving DecidableEq

/-- Whether a response surfaces a failure explicitly to the caller:
an error status code, or a re-rendered form carrying failure
messages. -/
def isExplicitFailure : Response → Bool
  | .errorStatus _ => true
  | .renderRegisterFailed _ _ _ => true
  | _ => false

/-- Decimal formatting `(total / games).toFixed(2)` idealised over the
rationals: the quotient in hundredths, rounded half up.  No claim
depends on its value; the dashboard handler is parameterised over the
division so independence from it can be stated where the guard must
prevent the division. -/
def toFixed2Div (total games : Nat) : Nat :=
  (total * 200 + games) / (games * 2)

/-- The `GET /dashboard` handler, parameterised by the division
`divFn` used for `averageClicks` and by the outcome of the stats
query.  On a resolved query, a missing row is replaced by the default
`{ games_played: 0, total_clicks: 0, best_score: 0 }`
(`result.rows[0] || {...}`), and
`averageClicks = stats.games_played ? divFn(...) : 0` (the JS
truthiness guard on `games_played`).  On a rejected query the `catch`
block logs (`console.error`, the Boolean component) and redirects to
`/`. -/
def dashboardHandler (divFn : Nat → Nat → Nat) (userName : String)
    (qres : Except StorageError (Option UserStats)) : Response × Bool :=
  match qres with
  | .error _ => (.redirect "/", true)
  | .ok row =>
      let games := match row with | some st => st.games_played | none => 0
      let total := match row with | some st => st.total_clicks | none => 0
      let best := match row with | some st => st.best_score | none => 0
      let averageClicks :=
        if games ≠ 0 then AvgClicks.fixed2 (divFn total games) else AvgClicks.num 0
      (.renderDashboard userName games best averageClicks, false)

/-- The `GET /leaderboard` handler: on a resolved query, render the
rows (the handler's `map` to `{ name, bestScore }` is the identity on
this model); on a rejected query, log and redirect to `/`. -/
def leaderboardHandler (qres : Except StorageError (List LeaderRow)) : Response × Bool :=
  match qres with
  | .error _ => (.redirect "/", true)
  | .ok rows => (.renderLeaderboard rows, false)

/-- The `POST /game/result` handler around `recordResult`:
`storageOutcome` is whether the queries of the `try` block resolve.
On success, `res.sendStatus(200)` with the store updated; on a
rejected query, the `catch` block logs (`console.error`) and sends
`res.sendStatus(500)` with no committed mutation. -/
def gameResultHandler (db : DB) (uid score : Nat)
    (storageOutcome : Except StorageError Unit) : Response × Bool × DB :=
  match storageOutcome with
  | .ok _ => (.okStatus 200, false, recordResult db uid score)
  | .error _ => (.errorStatus 500, true, db)

/-- The `POST /register` handler around `register`: on a resolved
insert (the store assigning `newId`), redirect to `/login`; on a
rejected insert (e.g. the unique-email constraint), re-render the
registration form with the failure message — the `catch` block does
not log. -/
def registerHandler (hashF : String → String) (db : DB)
    (nm email pw : String)
    (storageOutcome : Except StorageError Nat) : Response × Bool × DB :=
  match storageOutcome with
  | .ok newId => (.redirect "/login", false, (register hashF db nm email pw newId).1)
  | .error _ =>
      (.renderRegisterFailed ["Registration failed. Email may already be in use."] nm email,
       false, db)

/-- A concrete injective stand-in for the bcrypt digest, used only to
instantiate the black-box `hashF` parameter in witnesses and
counterexamples. -/
def demoHash (s : String) : String :=
  "$2b$10$" ++ s

/-- A concrete registered user for witnesses: password `pw123`. -/
def bob : User :=
  ⟨2, "Bob", "b@x.com", demoHash "pw123"⟩

/-- Four users with best scores `[30, 10, 50, 20]`, the leaderboard
ordering example of the spec. -/
def exampleDB : DB :=
  ⟨[⟨1, "u1", "u1@x.com", "h1"⟩, ⟨2, "u2", "u2@x.com", "h2"⟩,
    ⟨3, "u3", "u3@x.com", "h3"⟩, ⟨4, "u4", "u4@x.com", "h4"⟩],
   [⟨1, 1, 30, 30⟩, ⟨2, 1, 10, 10⟩, ⟨3, 1, 50, 50⟩, ⟨4, 1, 20, 20⟩]⟩

/-! ## Helper lemmas about the modelled SQL statements -/

theorem find?_concat_none {α : Type} (p : α → Bool) (l : List α) (x : α)
    (hl : l.find? p = none) (hx : p x = true) : (l ++ [x]).find? p = some x := by
  induction l with
  | nil => simp [List.find?, hx]
  | cons a l ih =>
      cases ha : p a with
      | true => simp [List.find?, ha] at hl
      | false =>
          simp only [List.find?, List.cons_append, ha] at hl ⊢
          exact ih hl

theorem find?_concat_skip {α : Type} (p : α → Bool) (l : List α) (x : α)
    (hx : p x = false) : (l ++ [x]).find? p = l.find? p := by
  induction l with
  | nil => simp [List.find?, hx]
  | cons a l ih =>
      cases ha : p a with
      | true => simp [List.find?, ha]
      | false => simp only [List.find?, List.cons_append, ha]; exact ih

theorem find?_updateStats_self (rows : List UserStats) (uid g t b : Nat)
    (cur : UserStats) (h : rows.find? (fun r => r.user_id == uid) = some cur) :
    (updateStats rows uid g t b).find? (fun r => r.user_id == uid) = some ⟨uid, g, t, b⟩ := by
  induction rows with
  | nil => simp [List.find?] at h
  | cons a rows ih =>
      cases ha : a.user_id == uid with
      | true =>
          have hid : a.user_id = uid := by simpa using ha
          simp [updateStats, List.find?, ha, hid]
      | false =>
          simp only [List.find?, ha] at h
          simpa [updateStats, List.find?, ha] using ih h

theorem find?_updateStats_other (rows : List UserStats) (uid g t b v : Nat)
    (hv : v ≠ uid) :
    (updateStats rows uid g t b).find? (fun r => r.user_id == v) =
      rows.find? (fun r => r.user_id == v) := by
  induction rows with
  | nil => rfl
  | cons a rows ih =>
      have step : updateStats (a :: rows) uid g t b =
          (if a.user_id == uid then
            { a with games_played := g, total_clicks := t, best_score := b }
          else a) :: updateStats rows uid g t b := by
        simp [updateStats]
      rw [step]
      by_cases hau : a.user_id = uid
      · have hav : (a.user_id == v) = false := by
          simp [hau]
          exact fun hh => hv hh.symm
        rw [if_pos (by simp [hau])]
        rw [List.find?_cons_of_neg _ (by simpa using hav),
          List.find?_cons_of_neg _ (by simpa using hav)]
        exact ih
      · rw [if_neg (by simp [hau])]
        cases hav : (a.user_id == v) with
        | true =>
            rw [List.find?_cons_of_pos _ (by simpa using hav),
              List.find?_cons_of_pos _ (by simpa using hav)]
        | false =>
            rw [List.find?_cons_of_neg _ (by simpa using hav),
              List.find?_cons_of_neg _ (by simpa using hav)]
            exact ih

theorem lookupStats_recordResult_new (db : DB) (uid score : Nat)
    (h : lookupStats db uid = none) :
    lookupStats (recordResult db uid score) uid = some ⟨uid, 1, score, score⟩ := by
  unfold recordResult rmwWrite rmwRead
  rw [h]
  unfold lookupStats at h ⊢
  exact find?_concat_none _ _ _ h (by simp)

theorem lookupStats_recordResult_found (db : DB) (uid score : Nat) (cur : UserStats)
    (h : lookupStats db uid = some cur) :
    lookupStats (recordResult db uid score) uid =
      some ⟨uid, cur.games_played + 1, cur.total_clicks + score,
            max cur.best_score score⟩ := by
  unfold recordResult rmwWrite rmwRead
  rw [h]
  unfold lookupStats at h ⊢
  exact find?_updateStats_self _ _ _ _ _ _ h

theorem lookupStats_recordResult_other (db : DB) (uid score v : Nat) (hv : v ≠ uid) :
    lookupStats (recordResult db uid score) v = lookupStats db v := by
  unfold recordResult rmwWrite rmwRead
  cases hr : lookupStats db uid with
  | none =>
      unfold lookupStats
      refine find?_concat_skip _ _ _ ?_
      simp
      exact fun hh => hv hh.symm
  | some cur =>
      unfold lookupStats
      exact find?_updateStats_other _ _ _ _ _ _ hv

theorem lookupStats_recordResults (db : DB) (uid : Nat) (scores : List Nat)
    (g t b : Nat) (h : lookupStats db uid = some ⟨uid, g, t, b⟩) :
    lookupStats (recordResults db uid scores) uid =
      some ⟨uid, g + scores.length, t + scores.sum, scores.foldl max b⟩ := by
  induction scores generalizing db g t b with
  | nil => simpa [recordResults] using h
  | cons s rest ih =>
      have h1 := lookupStats_recordResult_found db uid s _ h
      have h2 := ih (recordResult db uid s) (g + 1) (t + s) (max b s) h1
      simp only [recordResults, List.foldl_cons] at h2 ⊢
      rw [h2]
      simp [List.sum_cons]
      constructor
      · omega
      · omega

/-! ## Claim theorems -/

/-- C1: for every user `uid` and sequence of `k ≥ 1` sequential
`recordResult` calls with scores `s1, …, sk`, starting from a state
with no `user_stats` row for `uid`, the resulting row has
`games_played = k`, `total_clicks = s1 + … + sk` and
`best_score = max(s1, …, sk)` (over naturals, `List.foldl max 0` of a
nonempty list is its maximum). -/
theorem stats_invariant_after_sequence (db : DB) (uid : Nat) (scores : List Nat)
    (h0 : lookupStats db uid = none) (hne : scores ≠ []) :
    lookupStats (recordResults db uid scores) uid =
      some ⟨uid, scores.length, scores.sum, scores.foldl max 0⟩ := by
  cases scores with
  | nil => exact absurd rfl hne
  | cons s rest =>
      have h1 := lookupStats_recordResult_new db uid s h0
      have h2 := lookupStats_recordResults (recordResult db uid s) uid rest 1 s s h1
      simp only [recordResults, List.foldl_cons] at h2 ⊢
      rw [h2]
      have hmax : rest.foldl max (max 0 s) = rest.foldl max s := by
        rw [Nat.zero_max]
      have hlen : 1 + rest.length = rest.length + 1 := Nat.add_comm 1 rest.length
      rw [List.length_cons, List.sum_cons, hmax, hlen]

theorem stats_invariant_after_sequence_witness :
    lookupStats (recordResults ⟨[], []⟩ 7 [3, 9, 4]) 7 = some ⟨7, 3, 16, 9⟩ :=
  stats_invariant_after_sequence ⟨[], []⟩ 7 [3, 9, 4] rfl (by decide)

/-- C2: a single `recordResult` call creates the row
`(uid, 1, score, score)` when no `user_stats` row exists for `uid`,
otherwise replaces the existing row's three counters with
`games_played + 1`, `total_clicks + score` and
`max(best_score, score)` in the one `UPDATE` keyed by `user_id`; rows
of every other user are untouched. -/
theorem record_result_single_call (db : DB) (uid score : Nat) :
    (lookupStats db uid = none →
      lookupStats (recordResult db uid score) uid = some ⟨uid, 1, score, score⟩) ∧
    (∀ cur, lookupStats db uid = some cur →
      lookupStats (recordResult db uid score) uid =
        some ⟨uid, cur.games_played + 1, cur.total_clicks + score,
              max cur.best_score score⟩) ∧
    (∀ v, v ≠ uid → lookupStats (recordResult db uid score) v = lookupStats db v) :=
  ⟨fun h => lookupStats_recordResult_new db uid score h,
   fun cur h => lookupStats_recordResult_found db uid score cur h,
   fun v hv => lookupStats_recordResult_other db uid score v hv⟩

theorem record_result_single_call_witness :
    lookupStats (recordResult ⟨[], []⟩ 1 5) 1 = some ⟨1, 1, 5, 5⟩ ∧
    lookupStats (recordResult ⟨[], [⟨1, 2, 8, 6⟩]⟩ 1 5) 1 = some ⟨1, 3, 13, 6⟩ ∧
    lookupStats (recordResult ⟨[], [⟨1, 2, 8, 6⟩]⟩ 1 5) 2 =
      lookupStats ⟨[], [⟨1, 2, 8, 6⟩]⟩ 2 :=
  ⟨(record_result_single_call ⟨[], []⟩ 1 5).1 rfl,
   (record_result_single_call ⟨[], [⟨1, 2, 8, 6⟩]⟩ 1 5).2.1 ⟨1, 2, 8, 6⟩ rfl,
   (record_result_single_call ⟨[], [⟨1, 2, 8, 6⟩]⟩ 1 5).2.2 2 (by decide)⟩

/-- C3 (code bug): the source runs the stats read and the stats write
as two separate awaited queries with no transaction or per-user lock,
so the interleaving where both requests read before either writes is
possible.  From the state `games_played = 0, total_clicks = 0,
best_score = 0`, the interleaving read₁, read₂, write₁(score 5),
write₂(score 10) leaves `(games_played, total_clicks, best_score) =
(1, 10, 10)`: the first submission's increment is lost, contradicting
the required `(2, 15, 10)`.  Sequential execution of the same two
calls does give `(2, 15, 10)`. -/
theorem record_result_lost_update_interleaving :
    lookupStats
      (rmwWrite (rmwWrite ⟨[], [⟨1, 0, 0, 0⟩]⟩ 1 5 (rmwRead ⟨[], [⟨1, 0, 0, 0⟩]⟩ 1))
        1 10 (rmwRead ⟨[], [⟨1, 0, 0, 0⟩]⟩ 1)) 1 = some ⟨1, 1, 10, 10⟩ ∧
    some (⟨1, 1, 10, 10⟩ : UserStats) ≠ some ⟨1, 2, 15, 10⟩ ∧
    lookupStats (recordResult (recordResult ⟨[], [⟨1, 0, 0, 0⟩]⟩ 1 5) 1 10) 1 =
      some ⟨1, 2, 15, 10⟩ := by decide

/-- C4 (counterexample): a registered user whose stored hash is the
digest of the empty password submits that correct (empty) password;
`authenticateUser` answers `MissingPassword`, not success, because
the `!password` guard runs before the hash comparison.  So the claim
as stated — success for every registered user on the correct
password — fails at this input. -/
theorem authenticate_empty_password_counterexample :
    authenticateUser demoHash [⟨1, "Alice", "a@x.com", demoHash ""⟩] "a@x.com" ""
      = .error .MissingPassword ∧
    authenticateUser demoHash [⟨1, "Alice", "a@x.com", demoHash ""⟩] "a@x.com" ""
      ≠ .ok ⟨1, "Alice", "a@x.com", demoHash ""⟩ := by decide

/-- C4 (amended): for every registered user whose correct password is
non-empty (and whose stored digest is non-empty, as bcrypt digests
are), authentication with the correct password succeeds and returns
that user, and authentication with a non-empty wrong password whose
digest differs from the stored one fails with `WrongPassword`.  The
digest hypotheses are the idealisation of the collision-free one-way
primitive. -/
theorem authenticate_correct_and_wrong (hashF : String → String) (users : List User)
    (u : User) (correct wrong : String)
    (hu : findUserByEmail users u.email = some u)
    (hstored : u.password = hashF correct)
    (hc : correct ≠ "")
    (hdigest : hashF correct ≠ "")
    (hw : wrong ≠ "")
    (hcoll : hashF wrong ≠ hashF correct) :
    authenticateUser hashF users u.email correct = .ok u ∧
    authenticateUser hashF users u.email wrong = .error .WrongPassword := by
  constructor
  · unfold authenticateUser authenticateUserT
    rw [hu]
    dsimp only
    rw [if_neg hc, if_neg (by rw [hstored]; exact hdigest), if_pos (by rw [hstored])]
  · unfold authenticateUser authenticateUserT
    rw [hu]
    dsimp only
    rw [if_neg hw, if_neg (by rw [hstored]; exact hdigest),
      if_neg (by rw [hstored]; exact fun hh => hcoll hh.symm)]

theorem authenticate_correct_and_wrong_witness :
    authenticateUser demoHash [bob] bob.email "pw123" = .ok bob ∧
    authenticateUser demoHash [bob] bob.email "nope" = .error .WrongPassword :=
  authenticate_correct_and_wrong demoHash [bob] bob "pw123" "nope"
    (by decide) (by decide) (by decide) (by decide) (by decide) (by decide)

/-- C5: for an email with no registered user, authentication fails
with `NoSuchUser` for every submitted password (the empty one
included) and for every digest function: the outcome is the constant
`NoSuchUser`, so beyond this typed failure the lookup reveals nothing
that depends on the submitted credentials. -/
theorem authenticate_unknown_email (hashF : String → String) (users : List User)
    (email password : String) (h : findUserByEmail users email = none) :
    authenticateUser hashF users email password = .error .NoSuchUser := by
  unfold authenticateUser authenticateUserT
  rw [h]

theorem authenticate_unknown_email_witness :
    authenticateUser demoHash [bob] "nobody@x.com" "" = .error .NoSuchUser :=
  authenticate_unknown_email demoHash [bob] "nobody@x.com" "" (by decide)

/-- C6: for a registered user and an empty submitted password,
authentication fails with `MissingPassword`, and the instrumentation
flag (the second component, true exactly when the
`bcrypt.compare` branch runs) is `false`: the guard sits before the
hash comparison and the verify primitive is never invoked on the
empty password. -/
theorem authenticate_missing_password_guard (hashF : String → String)
    (users : List User) (email : String) (u : User)
    (h : findUserByEmail users email = some u) :
    authenticateUserT hashF users email "" = (.error .MissingPassword, false) := by
  unfold authenticateUserT
  rw [h]
  rfl

theorem authenticate_missing_password_guard_witness :
    authenticateUserT demoHash [bob] bob.email "" = (.error .MissingPassword, false) :=
  authenticate_missing_password_guard demoHash [bob] bob.email bob (by decide)

/-- C7: `topScores` returns the join of users with their stats rows,
ordered by best score descending and truncated to the first `n`
entries: the output is sorted under `rowGE`, taking as many entries
as there are joined rows returns a permutation of the join (so
exactly the users having a stats row, each with its name and best
score), the output is empty when no stats rows exist, and on the
spec's example — best scores `[30, 10, 50, 20]` — `topScores _ 3`
returns the rows scored `50, 30, 20` in that order. -/
theorem leaderboard_top_scores (db : DB) (n : Nat) :
    List.Sorted rowGE (topScores db n) ∧
    (topScores db ((joinRows db).length)).Perm (joinRows db) ∧
    (db.user_stats = [] → topScores db n = []) ∧
    topScores exampleDB 3 = [⟨"u3", 50⟩, ⟨"u1", 30⟩, ⟨"u4", 20⟩] := by
  refine ⟨?_, ?_, ?_, by decide⟩
  · have hs : List.Sorted rowGE (sortRows (joinRows db)) :=
      List.sorted_insertionSort rowGE _
    exact List.Pairwise.take hs
  · have hp : (sortRows (joinRows db)).Perm (joinRows db) :=
      List.perm_insertionSort rowGE _
    have hlen : (sortRows (joinRows db)).length = (joinRows db).length :=
      hp.length_eq
    unfold topScores
    rw [← hlen, List.take_length]
    exact hp
  · intro h
    unfold topScores sortRows joinRows
    rw [h]
    simp

theorem leaderboard_top_scores_witness :
    topScores ⟨[], []⟩ 5 = [] ∧ List.Sorted rowGE (topScores exampleDB 3) :=
  ⟨(leaderboard_top_scores ⟨[], []⟩ 5).2.2.1 rfl, (leaderboard_top_scores exampleDB 3).1⟩

/-- C8: registration stores, in the `password` column of the new
`users` row, exactly the digest `hashF pw` of the submitted password;
whenever the digest differs from the plaintext (one-wayness of the
primitive), the stored value is not the plaintext, and no other part
of the stored row derives from the password (`name` and `email` are
the other submitted fields, unchanged). -/
theorem register_stores_hash_only (hashF : String → String) (db : DB)
    (nm email pw : String) (newId : Nat) (hone : hashF pw ≠ pw) :
    (register hashF db nm email pw newId).2.password = hashF pw ∧
    (register hashF db nm email pw newId).2.password ≠ pw ∧
    (register hashF db nm email pw newId).1.users =
      db.users ++ [⟨newId, nm, email, hashF pw⟩] :=
  ⟨rfl, hone, rfl⟩

theorem register_stores_hash_only_witness :
    (register demoHash ⟨[], []⟩ "Alice" "a@x.com" "pw" 1).2.password = demoHash "pw" ∧
    (register demoHash ⟨[], []⟩ "Alice" "a@x.com" "pw" 1).2.password ≠ "pw" ∧
    (register demoHash ⟨[], []⟩ "Alice" "a@x.com" "pw" 1).1.users =
      [] ++ [⟨1, "Alice", "a@x.com", demoHash "pw"⟩] :=
  register_stores_hash_only demoHash ⟨[], []⟩ "Alice" "a@x.com" "pw" 1 (by decide)

/-- C9: every storage failure on a read path — the dashboard and the
leaderboard — is recovered locally: the handler logs
(`console.error`, the Boolean) and responds with a redirect to the
default landing page `/`, never an explicit failure response; every
storage failure on a write path — game-result submission and
registration — surfaces to the caller as an explicit failure (HTTP
500, resp. the re-rendered registration form with a failure
message). -/
theorem storage_failure_propagation (divFn : Nat → Nat → Nat) (userName : String)
    (db : DB) (uid score : Nat) (hashF : String → String)
    (nm email pw : String) (e : StorageError) :
    dashboardHandler divFn userName (.error e) = (.redirect "/", true) ∧
    isExplicitFailure (dashboardHandler divFn userName (.error e)).1 = false ∧
    leaderboardHandler (.error e) = (.redirect "/", true) ∧
    isExplicitFailure (leaderboardHandler (.error e)).1 = false ∧
    gameResultHandler db uid score (.error e) = (.errorStatus 500, true, db) ∧
    isExplicitFailure (gameResultHandler db uid score (.error e)).1 = true ∧
    registerHandler hashF db nm email pw (.error e) =
      (.renderRegisterFailed ["Registration failed. Email may already be in use."]
        nm email, false, db) ∧
    isExplicitFailure (registerHandler hashF db nm email pw (.error e)).1 = true :=
  ⟨rfl, rfl, rfl, rfl, rfl, rfl, rfl, rfl⟩

/-- C10: for a user with no `user_stats` row, the dashboard renders
the zero defaults `games_played = 0`, `best_score = 0`,
`averageClicks = 0`, and the result is the same for every division
function: the truthiness guard on `games_played` keeps the quotient
`total_clicks / games_played` from ever being computed when
`games_played = 0`. -/
theorem dashboard_missing_stats_defaults (divFn divFn2 : Nat → Nat → Nat)
    (userName : String) :
    dashboardHandler divFn userName (.ok none) =
      (.renderDashboard userName 0 0 (AvgClicks.num 0), false) ∧
    dashboardHandler divFn userName (.ok none) =
      dashboardHandler divFn2 userName (.ok none) :=
  ⟨rfl, rfl⟩

end DotGame
